import Mathlib

/-!
Verification of the offline durable sync engine of the KIEMKEKHOGIAY
repository (React client `App.tsx` / `useSyncWorker`, Google Apps Script
backend `Code.gs`).

The development shallowly embeds the code:

* `PaperRoll` is the domain record (all cells are display strings, as
  returned by `getDisplayValues()` and consumed by the sheet writer).
* `QueueItem`, `addToQueue`, `SyncState`, `processSyncQueue`,
  `resetSessionEffect`, `emptyQueueIntervalEffect` embed the client sync
  worker (`App.tsx` lines 9-260 / `useSyncWorker.ts`).
* `saveBatchToKiemKeSheet` embeds the server-side batch writer of
  `Code.gs` (the KIEMKE sheet is modelled as its list of data rows, each
  row a list of 20 cell strings; the header row is left implicit).
* `updateCache` / `cacheGet` embed the client read cache
  (`updateCache` / `handleSearch` in `App.tsx`); `jsToLowerCase` and
  `jsTrim` are structural models of the JavaScript string methods
  `toLowerCase` (ASCII case mapping per `Char.toLower`) and `trim`
  (strip leading and trailing whitespace).

The host environment (`Date.now()`, `navigator.onLine`, the outcome of
the network call) is passed to each embedded function as an explicit
argument; React state updates become explicit state passing on
`SyncState`.
-/

/-- Domain record, as produced by `searchPaperBySku` in `Code.gs`
(19 display-value columns A..S of the KHO sheet). -/
structure PaperRoll where
  sku : String
  purpose : String
  packageId : String
  type : String
  gsm : String
  supplier : String
  manufacturer : String
  importDate : String
  prodDate : String
  lengthCm : String
  widthCm : String
  weight : String
  quantity : String
  customerOrder : String
  materialCode : String
  location : String
  pendingOut : String
  importer : String
  updatedAt : String
  deriving Repr, DecidableEq

/-- A pending operation of the offline queue (`QueueItem` in `App.tsx`). -/
structure QueueItem where
  id : String
  data : PaperRoll
  timestamp : Nat
  retryCount : Nat
  deriving Repr, DecidableEq

/-- An element of the transmission batch: the spread of the queue item's
domain payload plus its queue id as idempotency token
(`{...b.data, _clientQueueId: b.id}` in `processSyncQueue`). -/
structure BatchItem where
  roll : PaperRoll
  clientQueueId : String
  deriving Repr, DecidableEq

/-- `BATCH_SIZE = 5` in `App.tsx` / `useSyncWorker.ts`. -/
def BATCH_SIZE : Nat := 5

/-- The Client ID cell of a KIEMKE data row: column 20 (index 19), where
`saveBatchToKiemKeSheet` stores `_clientQueueId`.  A short row reads as
the empty cell, matching an empty spreadsheet cell. -/
def rowClientId (row : List String) : String := row.getD 19 ""

/-- The set of already-present idempotency tokens, as collected by
`saveBatchToKiemKeSheet`: every non-empty Client ID cell of the sheet
(`if(r[0]) existingIds.add(String(r[0]))`). -/
def existingClientIds (rows : List (List String)) : List String :=
  rows.filterMap (fun r => if rowClientId r = "" then none else some (rowClientId r))

/-- The skip test of the write loop of `saveBatchToKiemKeSheet`:
`item._clientQueueId && existingIds.has(String(item._clientQueueId))`
(a JS string is truthy exactly when it is non-empty). -/
def isDuplicate (existing : List String) (it : BatchItem) : Bool :=
  !(it.clientQueueId == "") && existing.contains it.clientQueueId

/-- The 20-cell row appended for one batch item by
`saveBatchToKiemKeSheet`: the 17 item data columns, the importer, the
server timestamp prefixed with an apostrophe, and the Client ID. -/
def itemToRow (nowStr : String) (it : BatchItem) : List String :=
  [it.roll.sku, it.roll.purpose, it.roll.packageId, it.roll.type, it.roll.gsm,
   it.roll.supplier, it.roll.manufacturer, it.roll.importDate, it.roll.prodDate,
   it.roll.lengthCm, it.roll.widthCm, it.roll.weight, it.roll.quantity,
   it.roll.customerOrder, it.roll.materialCode, it.roll.location, it.roll.pendingOut,
   it.roll.importer, "'" ++ nowStr, it.clientQueueId]

/-- Server-side `saveBatchToKiemKeSheet` of `Code.gs`, over the KIEMKE
sheet modelled as its list of data rows.  An empty `dataArray` returns
`{added: 0}` without touching the sheet; otherwise every item whose
idempotency token is non-empty and already present in the Client ID
column is skipped, the remaining items are appended as rows at the end
of the sheet, and their count is returned as `added`. -/
def saveBatchToKiemKeSheet (dataArray : List BatchItem) (rows : List (List String))
    (nowStr : String) : List (List String) × Nat :=
  if dataArray.length = 0 then (rows, 0)
  else
    let existing := existingClientIds rows
    let rowsToAdd := (dataArray.filter (fun it => !isDuplicate existing it)).map (itemToRow nowStr)
    (rows ++ rowsToAdd, rowsToAdd.length)

theorem rowClientId_itemToRow (nowStr : String) (it : BatchItem) :
    rowClientId (itemToRow nowStr it) = it.clientQueueId := rfl

theorem contains_existingClientIds (rows : List (List String)) (id : String)
    (hid : id ≠ "") :
    (existingClientIds rows).contains id = (rows.map rowClientId).contains id := by
  rw [Bool.eq_iff_iff]
  constructor
  · intro hm
    obtain ⟨r, hr, hif⟩ := List.mem_filterMap.mp (List.elem_iff.mp hm)
    by_cases h : rowClientId r = ""
    · rw [if_pos h] at hif
      exact absurd hif (by simp)
    · rw [if_neg h, Option.some_inj] at hif
      exact List.elem_iff.mpr (List.mem_map.mpr ⟨r, hr, hif⟩)
  · intro hm
    obtain ⟨r, hr, hr2⟩ := List.mem_map.mp (List.elem_iff.mp hm)
    apply List.elem_iff.mpr
    apply List.mem_filterMap.mpr
    refine ⟨r, hr, ?_⟩
    rw [if_neg (by rw [hr2]; exact hid), hr2]

theorem isDuplicate_eq_contains (rows : List (List String)) (it : BatchItem)
    (hid : it.clientQueueId ≠ "") :
    isDuplicate (existingClientIds rows) it = (rows.map rowClientId).contains it.clientQueueId := by
  have h1 : (it.clientQueueId == "") = false := beq_eq_false_iff_ne.mpr hid
  simp only [isDuplicate, h1, Bool.not_false, Bool.true_and]
  exact contains_existingClientIds rows it.clientQueueId hid

/-- C1: for every batch passed to the server-side `saveBatchToKiemKeSheet`
(client batches always carry a non-empty `_clientQueueId`), an item whose
`_clientQueueId` already appears in the sheet's Client ID column is
skipped, the returned `added` count equals the number of items whose
`_clientQueueId` was not already present (the appended rows are exactly
those items' rows), and re-submitting the same batch against the updated
sheet appends no row and returns `added = 0`. -/
theorem saveBatch_idempotent_dedup
    (rows : List (List String)) (batch : List BatchItem) (nowStr nowStr2 : String)
    (h : ∀ it ∈ batch, it.clientQueueId ≠ "") :
    (saveBatchToKiemKeSheet batch rows nowStr).2
      = (batch.filter (fun it => !((rows.map rowClientId).contains it.clientQueueId))).length
    ∧ (saveBatchToKiemKeSheet batch rows nowStr).1
      = rows ++ (batch.filter
          (fun it => !((rows.map rowClientId).contains it.clientQueueId))).map (itemToRow nowStr)
    ∧ saveBatchToKiemKeSheet batch (saveBatchToKiemKeSheet batch rows nowStr).1 nowStr2
      = ((saveBatchToKiemKeSheet batch rows nowStr).1, 0) := by
  by_cases hb : batch.length = 0
  · rw [List.length_eq_zero] at hb
    subst hb
    simp [saveBatchToKiemKeSheet]
  · have hfilter :
        batch.filter (fun it => !isDuplicate (existingClientIds rows) it)
          = batch.filter (fun it => !((rows.map rowClientId).contains it.clientQueueId)) := by
      apply List.filter_congr
      intro it hit
      rw [isDuplicate_eq_contains rows it (h it hit)]
    have h1 : saveBatchToKiemKeSheet batch rows nowStr
        = (rows ++ (batch.filter
            (fun it => !((rows.map rowClientId).contains it.clientQueueId))).map (itemToRow nowStr),
           ((batch.filter
            (fun it => !((rows.map rowClientId).contains it.clientQueueId))).map
              (itemToRow nowStr)).length) := by
      simp only [saveBatchToKiemKeSheet, if_neg hb, hfilter]
    refine ⟨?_, ?_, ?_⟩
    · rw [h1]; simp
    · rw [h1]
    · -- resubmission: every item of the batch is now a duplicate
      set kept := batch.filter (fun it => !((rows.map rowClientId).contains it.clientQueueId))
        with hkept
      have h2 : (saveBatchToKiemKeSheet batch rows nowStr).1
          = rows ++ kept.map (itemToRow nowStr) := by rw [h1]
      rw [h2]
      have hdup : ∀ it ∈ batch,
          isDuplicate (existingClientIds (rows ++ kept.map (itemToRow nowStr))) it = true := by
        intro it hit
        have hid := h it hit
        rw [isDuplicate_eq_contains _ it hid]
        apply List.elem_iff.mpr
        rw [List.map_append, List.mem_append]
        by_cases hc : (rows.map rowClientId).contains it.clientQueueId = true
        · exact Or.inl (List.elem_iff.mp hc)
        · right
          have hcf : (rows.map rowClientId).contains it.clientQueueId = false :=
            Bool.eq_false_iff.mpr hc
          have hmem : it ∈ kept := by
            rw [hkept, List.mem_filter]
            exact ⟨hit, by rw [hcf]; rfl⟩
          rw [List.map_map]
          exact List.mem_map_of_mem (rowClientId ∘ itemToRow nowStr) hmem
      have hnil : batch.filter
          (fun it => !isDuplicate (existingClientIds (rows ++ kept.map (itemToRow nowStr))) it)
            = [] := by
        apply List.filter_eq_nil_iff.mpr
        intro it hit
        rw [hdup it hit]
        simp
      simp only [saveBatchToKiemKeSheet, if_neg hb, hnil, List.map_nil, List.append_nil,
        List.length_nil]

/-- React state of the sync worker (`App.tsx` lines 37-51 /
`useSyncWorker.ts` lines 20-28): the offline queue, the session progress
counter, the visual syncing flag, the backoff interval, and the mutual
exclusion ref guarding the dispatch. -/
structure SyncState where
  offlineQueue : List QueueItem
  sessionTotal : Nat
  isSyncing : Bool
  syncIntervalMs : Nat
  isSyncingRef : Bool
  deriving Repr, DecidableEq

/-- Observable outcome of one invocation of `processSyncQueue`: the
resulting state, the batch handed to `api.saveBatchToKiemKeSheet`
(`none` when the guard returned early and no network call was issued),
and whether the failure-path error notification was shown. -/
structure ProcResult where
  state : SyncState
  sent : Option (List BatchItem)
  errorNotified : Bool
  deriving Repr, DecidableEq

/-- `batch.map(b => ({...b.data, _clientQueueId: b.id}))`. -/
def mkBatchItem (b : QueueItem) : BatchItem :=
  { roll := b.data, clientQueueId := b.id }

/-- The success continuation of `processSyncQueue`:
`setOfflineQueue(prev => prev.slice(batch.length))` removes the first
`batch.length` elements of the queue as it stands at completion time,
`setSyncIntervalMs(1000)` enters burst mode, and the `finally` block
clears both syncing flags. -/
def dispatchSuccessCompletion (batchLen : Nat) (s : SyncState) : SyncState :=
  { s with offlineQueue := s.offlineQueue.drop batchLen,
           syncIntervalMs := 1000,
           isSyncingRef := false, isSyncing := false }

/-- The backoff update of the failure path:
`setSyncIntervalMs(prev => Math.min(prev * 2, 300000))`. -/
def failStep (i : Nat) : Nat := min (i * 2) 300000

/-- The failure continuation of `processSyncQueue`: double the interval
(capped at 300000 ms); the `finally` block clears both syncing flags;
the queue is not touched. -/
def dispatchFailureCompletion (s : SyncState) : SyncState :=
  { s with syncIntervalMs := failStep s.syncIntervalMs,
           isSyncingRef := false, isSyncing := false }

/-- One invocation of `processSyncQueue` (`App.tsx` lines 167-216 /
`useSyncWorker.ts` lines 59-94) with no interleaving event: `online`
is `navigator.onLine`, `ok` tells whether `api.saveBatchToKiemKeSheet`
resolved or threw.  The failure-path notification check
`if (syncIntervalMs > 60000)` reads the interval captured when the
callback was created, i.e. the value before this failure's doubling. -/
def processSyncQueue (online ok : Bool) (s : SyncState) : ProcResult :=
  if s.offlineQueue.length == 0 || s.isSyncingRef || !online then
    { state := s, sent := none, errorNotified := false }
  else
    let s1 : SyncState := { s with isSyncingRef := true, isSyncing := true }
    let batch := s1.offlineQueue.take BATCH_SIZE
    let batchItems := batch.map mkBatchItem
    if ok then
      { state := dispatchSuccessCompletion batch.length s1,
        sent := some batchItems,
        errorNotified := false }
    else
      { state := dispatchFailureCompletion s1,
        sent := some batchItems,
        errorNotified := decide (60000 < s.syncIntervalMs) }

/-- The `RESET SESSION TOTAL WHEN QUEUE EMPTY` effect (`App.tsx` lines
159-164): whenever the queue length is 0, the session total is reset to
0 and the visual syncing flag to false. -/
def resetSessionEffect (s : SyncState) : SyncState :=
  if s.offlineQueue.length == 0 then { s with sessionTotal := 0, isSyncing := false } else s

/-- The `else` branch of the sync trigger loop (`App.tsx` lines 227-230):
with an empty queue the interval is reset to the steady 10000 ms. -/
def emptyQueueIntervalEffect (s : SyncState) : SyncState :=
  if s.offlineQueue.length == 0 && !(s.syncIntervalMs == 10000) then
    { s with syncIntervalMs := 10000 }
  else s

/-- `addToQueue` of `useSyncWorker.ts` (equivalently step 3-4 of
`handleConfirmCheck` in `App.tsx`): the new operation gets the
time-derived id `q-${Date.now()}`, is appended at the tail of the
queue, and the session total is incremented. -/
def addToQueue (item : PaperRoll) (nowMs : Nat) (s : SyncState) : SyncState :=
  let queueItem : QueueItem :=
    { id := "q-" ++ toString nowMs, data := item, timestamp := nowMs, retryCount := 0 }
  { s with offlineQueue := s.offlineQueue ++ [queueItem],
           sessionTotal := s.sessionTotal + 1 }

/-- Driver for an all-success online run: fire the sync timer up to
`fuel` times, recording the size of each dispatched batch; the React
reset effect runs after each queue mutation. -/
def runSyncLoop : Nat → SyncState → List Nat × SyncState
  | 0, s => ([], s)
  | fuel + 1, s =>
    let r := processSyncQueue true true s
    match r.sent with
    | none => ([], r.state)
    | some items =>
      let rest := runSyncLoop fuel (resetSessionEffect r.state)
      (items.length :: rest.1, rest.2)

/-- All-fields sample domain record used by the concrete scenarios. -/
def sampleRoll : PaperRoll :=
  { sku := "SKU1", purpose := "", packageId := "PKG1", type := "", gsm := "", supplier := "",
    manufacturer := "", importDate := "", prodDate := "", lengthCm := "", widthCm := "",
    weight := "", quantity := "", customerOrder := "", materialCode := "", location := "",
    pendingOut := "", importer := "", updatedAt := "" }

def mkSampleQueueItem (n : Nat) : QueueItem :=
  { id := "q-" ++ toString n, data := sampleRoll, timestamp := n, retryCount := 0 }

/-- Initial React state of the sync worker (empty queue, 10 s interval). -/
def initialSyncState : SyncState :=
  { offlineQueue := [], sessionTotal := 0, isSyncing := false, syncIntervalMs := 10000,
    isSyncingRef := false }

/-- Twelve pending operations waiting in the queue. -/
def twelveState : SyncState :=
  { offlineQueue := (List.range 12).map mkSampleQueueItem, sessionTotal := 12,
    isSyncing := false, syncIntervalMs := 10000, isSyncingRef := false }

theorem length_beq_zero_false (l : List QueueItem) (h : l ≠ []) :
    (l.length == 0) = false :=
  beq_eq_false_iff_ne.mpr (fun hc => h (List.length_eq_zero.mp hc))

/-- C4: invoking the dispatch trigger while a dispatch is already in
flight, or while the queue is empty, or while connectivity is down, is a
no-op: the state is unchanged, no network call is issued, and no
notification is shown.  The `isSyncingRef` guard is the mutual-exclusion
mechanism: any trigger arriving while one dispatch is in flight (the ref
is true) falls into this no-op branch, so a second dispatch is never
started. -/
theorem processSyncQueue_guard_noop (s : SyncState) (online ok : Bool)
    (h : s.offlineQueue = [] ∨ s.isSyncingRef = true ∨ online = false) :
    processSyncQueue online ok s = { state := s, sent := none, errorNotified := false } := by
  have hg : (s.offlineQueue.length == 0 || s.isSyncingRef || !online) = true := by
    rcases h with h | h | h
    · simp [h]
    · simp [h]
    · simp [h]
  simp [processSyncQueue, hg]

/-- C3: when a dispatch fails, the queue (and the session counter) is
left exactly as it was before the dispatch — nothing is removed,
re-ordered, split, or discarded — and the only field that changes is the
backoff interval, which doubles (capped at 300000 ms). -/
theorem processSyncQueue_failure_frame (s : SyncState)
    (hq : s.offlineQueue ≠ []) (href : s.isSyncingRef = false) (hvis : s.isSyncing = false) :
    (processSyncQueue true false s).state
        = { s with syncIntervalMs := min (s.syncIntervalMs * 2) 300000 }
    ∧ (processSyncQueue true false s).state.offlineQueue = s.offlineQueue
    ∧ (processSyncQueue true false s).state.sessionTotal = s.sessionTotal := by
  have hg : (s.offlineQueue.length == 0 || s.isSyncingRef || !true) = false := by
    simp [length_beq_zero_false s.offlineQueue hq, href]
  have h1 : (processSyncQueue true false s).state
      = { s with syncIntervalMs := min (s.syncIntervalMs * 2) 300000 } := by
    simp only [processSyncQueue, hg, Bool.false_eq_true, if_false,
      dispatchFailureCompletion, failStep]
    rw [hvis, href]
  exact ⟨h1, by rw [h1], by rw [h1]⟩

/-- C2: each dispatch sends exactly the first `min(n, BATCH_SIZE)`
operations in queue order as one call and on success removes exactly
that many from the front; concretely, twelve enqueued operations with
all-success dispatches yield exactly three dispatch calls of sizes
5, 5, 2 and an empty queue afterward (a fourth timer firing issues no
further call). -/
theorem dispatch_batch_sizing (s : SyncState)
    (hq : s.offlineQueue ≠ []) (href : s.isSyncingRef = false) :
    (processSyncQueue true true s).sent
        = some ((s.offlineQueue.take BATCH_SIZE).map mkBatchItem)
    ∧ (processSyncQueue true true s).state.offlineQueue
        = s.offlineQueue.drop (s.offlineQueue.take BATCH_SIZE).length
    ∧ (runSyncLoop 4 twelveState).1 = [5, 5, 2]
    ∧ (runSyncLoop 4 twelveState).2.offlineQueue = [] := by
  have hg : (s.offlineQueue.length == 0 || s.isSyncingRef || !true) = false := by
    simp [length_beq_zero_false s.offlineQueue hq, href]
  refine ⟨?_, ?_, by decide, by decide⟩
  · simp [processSyncQueue, hg, hq, href]
  · simp [processSyncQueue, hg, hq, href, dispatchSuccessCompletion]

theorem failStep_iterate (k i : Nat) (h2 : i ≤ 300000) :
    failStep^[k] i = min (i * 2 ^ k) 300000 := by
  induction k with
  | zero => simpa using (Nat.min_eq_left h2).symm
  | succ k ih =>
    rw [Function.iterate_succ_apply', ih, failStep, pow_succ, ← Nat.mul_assoc]
    generalize i * 2 ^ k = a
    omega

/-- C5: for every starting interval in `[1000, 300000]`, each dispatch
failure sets the interval to `min(2 * interval, 300000)`; nine
consecutive failures drive it to exactly 300000 and it never goes
beyond; a single dispatch success sets the interval to exactly 1000
regardless of the preceding failure streak. -/
theorem backoff_bounds (s : SyncState)
    (hq : s.offlineQueue ≠ []) (href : s.isSyncingRef = false)
    (hlo : 1000 ≤ s.syncIntervalMs) (hhi : s.syncIntervalMs ≤ 300000) :
    (processSyncQueue true false s).state.syncIntervalMs = min (s.syncIntervalMs * 2) 300000
    ∧ failStep^[9] s.syncIntervalMs = 300000
    ∧ (∀ k, failStep^[k] s.syncIntervalMs ≤ 300000)
    ∧ (processSyncQueue true true s).state.syncIntervalMs = 1000 := by
  have hg : (s.offlineQueue.length == 0 || s.isSyncingRef || !true) = false := by
    simp [length_beq_zero_false s.offlineQueue hq, href]
  refine ⟨?_, ?_, ?_, ?_⟩
  · simp only [processSyncQueue, hg, Bool.false_eq_true, if_false,
      dispatchFailureCompletion, failStep]
  · rw [failStep_iterate 9 s.syncIntervalMs hhi]
    have h512 : 1000 * 512 ≤ s.syncIntervalMs * 512 := Nat.mul_le_mul_right 512 hlo
    have h29 : (2 : Nat) ^ 9 = 512 := by norm_num
    rw [h29]
    omega
  · intro k
    rw [failStep_iterate k s.syncIntervalMs hhi]
    exact Nat.min_le_right _ _
  · simp [processSyncQueue, hg, hq, href, dispatchSuccessCompletion]

/-- C6: the session progress total resets to 0 (and the syncing flag to
false) exactly when the queue length reaches 0 (the reset effect is the
identity on a non-empty queue); each enqueue increments the total by one
and the queue length by one, so the next enqueue after an empty-queue
reset re-arms the total to the new queue length; and a successful
dispatch that drains the whole queue ends with total 0 and the syncing
flag false. -/
theorem session_progress_invariant :
    (∀ s : SyncState, s.offlineQueue = [] →
        resetSessionEffect s = { s with sessionTotal := 0, isSyncing := false })
    ∧ (∀ s : SyncState, s.offlineQueue ≠ [] → resetSessionEffect s = s)
    ∧ (∀ (s : SyncState) (item : PaperRoll) (t : Nat),
        (addToQueue item t s).sessionTotal = s.sessionTotal + 1
          ∧ (addToQueue item t s).offlineQueue.length = s.offlineQueue.length + 1)
    ∧ (∀ (s : SyncState) (item : PaperRoll) (t : Nat), s.offlineQueue = [] → s.sessionTotal = 0 →
        (addToQueue item t s).sessionTotal = (addToQueue item t s).offlineQueue.length)
    ∧ (∀ s : SyncState, s.offlineQueue ≠ [] → s.isSyncingRef = false →
        s.offlineQueue.length ≤ BATCH_SIZE →
        (resetSessionEffect (processSyncQueue true true s).state).sessionTotal = 0
          ∧ (resetSessionEffect (processSyncQueue true true s).state).isSyncing = false) := by
  refine ⟨?_, ?_, ?_, ?_, ?_⟩
  · intro s h
    simp [resetSessionEffect, h]
  · intro s h
    simp [resetSessionEffect, length_beq_zero_false _ h]
  · intro s item t
    exact ⟨rfl, by simp [addToQueue]⟩
  · intro s item t h1 h2
    simp [addToQueue, h1, h2]
  · intro s h href hlen
    have hg : (s.offlineQueue.length == 0 || s.isSyncingRef || !true) = false := by
      simp [length_beq_zero_false s.offlineQueue h, href]
    have hstate : (processSyncQueue true true s).state.offlineQueue
        = s.offlineQueue.drop (s.offlineQueue.take BATCH_SIZE).length := by
      simp [processSyncQueue, hg, h, href, dispatchSuccessCompletion]
    have hqlen : ((processSyncQueue true true s).state.offlineQueue.length == 0) = true := by
      rw [hstate, beq_iff_eq, List.length_drop, List.length_take]
      simp only [BATCH_SIZE] at hlen ⊢
      omega
    constructor
    · simp [resetSessionEffect, hqlen]
    · simp [resetSessionEffect, hqlen]

/-- C10: on dispatch success the completion handler removes only the
first batch-length elements of the queue as it stands at completion
time, so every operation enqueued while that dispatch was in flight
(enqueues only append at the tail) remains in the queue, unchanged and
in its position after the remainder of the dispatched-from prefix. -/
theorem dispatch_completion_frame (q0 extra : List QueueItem) (s : SyncState)
    (hs : s.offlineQueue = q0 ++ extra) :
    (dispatchSuccessCompletion (q0.take BATCH_SIZE).length s).offlineQueue
        = q0.drop (q0.take BATCH_SIZE).length ++ extra
    ∧ ∀ (s' : SyncState) (item : PaperRoll) (t : Nat),
        (addToQueue item t s').offlineQueue
          = s'.offlineQueue ++ [⟨"q-" ++ toString t, item, t, 0⟩] := by
  constructor
  · show s.offlineQueue.drop (q0.take BATCH_SIZE).length = _
    rw [hs]
    apply List.drop_append_of_le_length
    rw [List.length_take]
    exact Nat.min_le_right _ _
  · intro s' item t
    rfl

/-- Structural model of the JavaScript `String.prototype.toLowerCase`
used by `updateCache` and `handleSearch` (per-character lower-casing). -/
def jsToLowerCase (s : String) : String := String.mk (s.data.map Char.toLower)

/-- Structural model of the JavaScript `String.prototype.trim` used by
`handleSearch` (strip leading and trailing whitespace). -/
def jsTrim (s : String) : String :=
  String.mk (((s.data.dropWhile Char.isWhitespace).reverse.dropWhile Char.isWhitespace).reverse)

/-- Lookup in the data cache (`dataCache.get(key)`); the JS `Map` is
modelled by its association list, most recent binding first. -/
def cacheGet (m : List (String × PaperRoll)) (k : String) : Option PaperRoll :=
  (m.find? (fun p => p.1 == k)).map Prod.snd

/-- `Map.set(k, v)`: the new binding replaces any previous binding of
`k`; only lookup behaviour matters to the claims, so the binding is
stored up front. -/
def cacheSet (m : List (String × PaperRoll)) (k : String) (v : PaperRoll) :
    List (String × PaperRoll) :=
  (k, v) :: m.filter (fun p => !(p.1 == k))

/-- `updateCache` of `App.tsx` (lines 274-281): one `setDataCache`
update stores the record under its lower-cased `sku` key and its
lower-cased `packageId` key, skipping a key whose source field is empty
(falsy). -/
def updateCache (item : PaperRoll) (prev : List (String × PaperRoll)) :
    List (String × PaperRoll) :=
  let c1 := if item.sku ≠ "" then cacheSet prev (jsToLowerCase item.sku) item else prev
  if item.packageId ≠ "" then cacheSet c1 (jsToLowerCase item.packageId) item else c1

/-- The lookup normalization of `handleSearch`:
`code.trim().toLowerCase()`. -/
def normalizeSearchCode (code : String) : String := jsToLowerCase (jsTrim code)

theorem cacheGet_set_self (m : List (String × PaperRoll)) (k : String) (v : PaperRoll) :
    cacheGet (cacheSet m k v) k = some v := by
  simp [cacheGet, cacheSet, List.find?_cons_of_pos]

theorem find?_filter_ne (m : List (String × PaperRoll)) (k k' : String) (h : k' ≠ k) :
    (m.filter (fun p => !(p.1 == k))).find? (fun p => p.1 == k')
      = m.find? (fun p => p.1 == k') := by
  induction m with
  | nil => rfl
  | cons p ps ih =>
    by_cases hp : p.1 = k'
    · have hf : (p.1 == k) = false := beq_eq_false_iff_ne.mpr (by rw [hp]; exact h)
      rw [List.filter_cons_of_pos (by simp [hf]), List.find?_cons_of_pos _ (by simp [hp]),
        List.find?_cons_of_pos _ (by simp [hp])]
    · by_cases hfk : p.1 = k
      · rw [List.filter_cons_of_neg (by simp [hfk]), ih,
          List.find?_cons_of_neg _ (by simp [hp])]
      · rw [List.filter_cons_of_pos (by simp [hfk]), List.find?_cons_of_neg _ (by simp [hp]),
          List.find?_cons_of_neg _ (by simp [hp]), ih]

theorem cacheGet_set_ne (m : List (String × PaperRoll)) (k k' : String) (v : PaperRoll)
    (h : k' ≠ k) : cacheGet (cacheSet m k v) k' = cacheGet m k' := by
  unfold cacheGet cacheSet
  rw [List.find?_cons_of_neg _ (by simp [Ne.symm h]), find?_filter_ne m k k' h]

/-- C7: writing a record into the read cache stores the identical latest
snapshot under every alias key the record carries (its `sku` and its
`packageId`, lower-cased) in one `setDataCache` update; afterwards a
lookup by either alias key — lower-cased and trimmed as `handleSearch`
does (the keys themselves carrying no surrounding whitespace) — returns
that same snapshot. -/
theorem cache_alias_consistency (cache : List (String × PaperRoll)) (item : PaperRoll)
    (hs : jsTrim item.sku = item.sku) (hp : jsTrim item.packageId = item.packageId) :
    (item.sku ≠ "" →
        cacheGet (updateCache item cache) (normalizeSearchCode item.sku) = some item)
    ∧ (item.packageId ≠ "" →
        cacheGet (updateCache item cache) (normalizeSearchCode item.packageId) = some item) := by
  constructor
  · intro hsku
    unfold updateCache normalizeSearchCode
    rw [hs, if_pos hsku]
    by_cases hpkg : item.packageId ≠ ""
    · rw [if_pos hpkg]
      by_cases heq : jsToLowerCase item.sku = jsToLowerCase item.packageId
      · rw [heq]
        exact cacheGet_set_self _ _ _
      · rw [cacheGet_set_ne _ _ _ _ heq]
        exact cacheGet_set_self _ _ _
    · rw [if_neg hpkg]
      exact cacheGet_set_self _ _ _
  · intro hpkg
    unfold updateCache normalizeSearchCode
    rw [hp, if_pos hpkg]
    exact cacheGet_set_self _ _ _

/-- C8: the id assigned at enqueue time is `q-${Date.now()}`, so two
enqueues that happen in the same millisecond (`Date.now()` returning the
same value, here 1234) produce two queue elements with the same id —
the queue then violates the uniqueness the specification requires. -/
theorem duplicate_id_same_millisecond :
    ((addToQueue sampleRoll 1234 (addToQueue sampleRoll 1234 initialSyncState)).offlineQueue.map
        QueueItem.id) = ["q-1234", "q-1234"]
    ∧ ¬ ((addToQueue sampleRoll 1234 (addToQueue sampleRoll 1234
        initialSyncState)).offlineQueue.map QueueItem.id).Nodup := by
  constructor
  · rfl
  · intro hnd
    have := List.Nodup.sublist (List.Sublist.refl _) hnd
    rw [show ((addToQueue sampleRoll 1234 (addToQueue sampleRoll 1234
        initialSyncState)).offlineQueue.map QueueItem.id) = ["q-1234", "q-1234"] from rfl] at this
    simp at this

/-- Dispatch-failure scenario used for C9: one pending operation, not in
flight, current interval 40000 ms. -/
def failingState40000 : SyncState :=
  { offlineQueue := [mkSampleQueueItem 0], sessionTotal := 1, isSyncing := false,
    syncIntervalMs := 40000, isSyncingRef := false }

/-- C9 counterexample: a dispatch failure at interval 40000 ms doubles
the interval to 80000 ms — the interval has then climbed past
60000 ms — yet no error notification is shown, because the check
`if (syncIntervalMs > 60000)` reads the interval value from before the
doubling (40000 ≤ 60000). -/
theorem notification_not_iff_updated_interval :
    (processSyncQueue true false failingState40000).state.syncIntervalMs = 80000
    ∧ 60000 < (processSyncQueue true false failingState40000).state.syncIntervalMs
    ∧ (processSyncQueue true false failingState40000).errorNotified = false := by
  refine ⟨rfl, ?_, rfl⟩
  rw [show (processSyncQueue true false failingState40000).state.syncIntervalMs = 80000 from rfl]
  norm_num

/-- C9 (amended): a dispatch failure is surfaced to the user if and only
if the retry interval as it stood before that failure's doubling exceeds
60000 ms (one backoff step later than checking the post-update value),
so sustained failure is still eventually reported: from any interval in
`[1000, 300000]`, eight consecutive failures push the pre-doubling
interval past 60000, so the next failure notifies. -/
theorem notification_threshold_previous_interval (s : SyncState)
    (hq : s.offlineQueue ≠ []) (href : s.isSyncingRef = false) :
    ((processSyncQueue true false s).errorNotified = true ↔ 60000 < s.syncIntervalMs)
    ∧ (1000 ≤ s.syncIntervalMs → s.syncIntervalMs ≤ 300000 →
        60000 < failStep^[8] s.syncIntervalMs) := by
  have hg : (s.offlineQueue.length == 0 || s.isSyncingRef || !true) = false := by
    simp [length_beq_zero_false s.offlineQueue hq, href]
  constructor
  · simp [processSyncQueue, hg, hq, href]
  · intro hlo hhi
    rw [failStep_iterate 8 s.syncIntervalMs hhi]
    have h256 : 1000 * 256 ≤ s.syncIntervalMs * 256 := Nat.mul_le_mul_right 256 hlo
    have h28 : (2 : Nat) ^ 8 = 256 := by norm_num
    rw [h28]
    omega

/-- Concrete batch items for the C1 scenario. -/
def sampleBatchItem1 : BatchItem := { roll := sampleRoll, clientQueueId := "q-1" }

def sampleBatchItem2 : BatchItem := { roll := sampleRoll, clientQueueId := "q-2" }

/-- A KIEMKE sheet already holding the row of `sampleBatchItem1`. -/
def sampleSheet : List (List String) := [itemToRow "01/01/2026" sampleBatchItem1]

/-- Witness for C1 at a concrete sheet and batch: one of the two items
is already present, so exactly one row is added. -/
theorem saveBatch_idempotent_dedup_witness :
    (∀ it ∈ [sampleBatchItem1, sampleBatchItem2], it.clientQueueId ≠ "")
    ∧ (saveBatchToKiemKeSheet [sampleBatchItem1, sampleBatchItem2] sampleSheet "n").2
        = ([sampleBatchItem1, sampleBatchItem2].filter
            (fun it => !((sampleSheet.map rowClientId).contains it.clientQueueId))).length
    ∧ (saveBatchToKiemKeSheet [sampleBatchItem1, sampleBatchItem2] sampleSheet "n").2 = 1 :=
  ⟨by decide,
   (saveBatch_idempotent_dedup sampleSheet [sampleBatchItem1, sampleBatchItem2] "n" "m"
      (by decide)).1,
   by decide⟩

/-- Witness for C2 at the twelve-operation state. -/
theorem dispatch_batch_sizing_witness :
    twelveState.offlineQueue ≠ []
    ∧ (processSyncQueue true true twelveState).sent
        = some ((twelveState.offlineQueue.take BATCH_SIZE).map mkBatchItem) :=
  ⟨by decide, (dispatch_batch_sizing twelveState (by decide) rfl).1⟩

/-- Witness for C3 at the concrete failure scenario. -/
theorem processSyncQueue_failure_frame_witness :
    (processSyncQueue true false failingState40000).state.offlineQueue
      = failingState40000.offlineQueue :=
  (processSyncQueue_failure_frame failingState40000 (by decide) rfl rfl).2.1

/-- Witness for C4: a trigger on the empty initial state is a no-op. -/
theorem processSyncQueue_guard_noop_witness :
    processSyncQueue true true initialSyncState
      = { state := initialSyncState, sent := none, errorNotified := false } :=
  processSyncQueue_guard_noop initialSyncState true true (Or.inl rfl)

/-- Witness for C5: a success at interval 40000 resets it to 1000. -/
theorem backoff_bounds_witness :
    (processSyncQueue true true failingState40000).state.syncIntervalMs = 1000 :=
  (backoff_bounds failingState40000 (by decide) rfl (by decide) (by decide)).2.2.2

/-- Witness for C6: the first enqueue from the empty state re-arms the
session total to the new queue length. -/
theorem session_progress_invariant_witness :
    (addToQueue sampleRoll 5 initialSyncState).sessionTotal
      = (addToQueue sampleRoll 5 initialSyncState).offlineQueue.length :=
  session_progress_invariant.2.2.2.1 initialSyncState sampleRoll 5 rfl rfl

/-- Sample record with both alias keys for the C7 witness. -/
def aliasRoll : PaperRoll := { sampleRoll with sku := "ABC", packageId := "PKG-1" }

/-- Witness for C7: after writing, the `sku` alias key resolves to the
written snapshot. -/
theorem cache_alias_consistency_witness :
    jsTrim aliasRoll.sku = aliasRoll.sku
    ∧ cacheGet (updateCache aliasRoll []) (normalizeSearchCode aliasRoll.sku) = some aliasRoll :=
  ⟨by decide, (cache_alias_consistency [] aliasRoll (by decide) (by decide)).1 (by decide)⟩

/-- Witness for C9 (amended) at the concrete failure scenario. -/
theorem notification_threshold_previous_interval_witness :
    ((processSyncQueue true false failingState40000).errorNotified = true
      ↔ 60000 < failingState40000.syncIntervalMs) :=
  (notification_threshold_previous_interval failingState40000 (by decide) rfl).1

/-- A state whose queue is a dispatched-from prefix of one element plus
one element enqueued while the dispatch was in flight. -/
def inFlightState : SyncState :=
  { offlineQueue := [mkSampleQueueItem 0] ++ [mkSampleQueueItem 1], sessionTotal := 2,
    isSyncing := true, syncIntervalMs := 1000, isSyncingRef := true }

/-- Witness for C10 at the concrete in-flight state. -/
theorem dispatch_completion_frame_witness :
    (dispatchSuccessCompletion (([mkSampleQueueItem 0]).take BATCH_SIZE).length
        inFlightState).offlineQueue
      = ([mkSampleQueueItem 0]).drop (([mkSampleQueueItem 0]).take BATCH_SIZE).length
          ++ [mkSampleQueueItem 1] :=
  (dispatch_completion_frame [mkSampleQueueItem 0] [mkSampleQueueItem 1] inFlightState rfl).1
